import Mathlib

/-!
Shallow embedding of the prototype-api conversation and RAG core
(src/routes/messages/controller.py, src/services/openai_client.py,
src/services/rag_service.py), with theorems checking the specification
claims against the code.
-/

/-- Python str.strip: drops whitespace from both ends. -/
def pyStrip (s : String) : String :=
  String.mk (((s.data.dropWhile Char.isWhitespace).reverse.dropWhile Char.isWhitespace).reverse)

/-- Python s[:n] character slice. -/
def pyTake (s : String) (n : Nat) : String :=
  String.mk (s.data.take n)

/-- Python sep.join(xs). -/
def pyJoin (sep : String) : List String → String
  | [] => ""
  | x :: rest => rest.foldl (fun acc y => acc ++ sep ++ y) x

/-- Worker for Python str.split(sep) with a non-empty separator, over char lists.
The fuel argument (instantiated with the input length) keeps the recursion structural. -/
def pySplitAux (sep : List Char) : Nat → List Char → List (List Char)
  | _, [] => [[]]
  | 0, xs => [xs]
  | fuel + 1, x :: xs =>
    if sep ≠ [] ∧ sep = (x :: xs).take sep.length then
      [] :: pySplitAux sep fuel ((x :: xs).drop sep.length)
    else
      match pySplitAux sep fuel xs with
      | [] => [[x]]
      | a :: rest => (x :: a) :: rest

/-- Python s.split(sep) for a non-empty separator. -/
def pySplit (s sep : String) : List String :=
  (pySplitAux sep.data s.data.length s.data).map String.mk

/-!
Embedding of src/services/openai_client.py (chat path) and
src/routes/messages/controller.py (send_message and the conversations store).
-/

/-- A message dict as the code builds them: role, content, and an optional
timestamp key (present only on the entries appended by the controller).
Timestamps are modelled as naturals. -/
structure Msg where
  role : String
  content : String
  timestamp : Option Nat
deriving DecidableEq, Repr

/-- The fixed system instruction of `_prepare_chat_messages` (content abridged:
its exact wording plays no role in any claim). -/
def systemMessage : Msg :=
  ⟨"system", "You are a helpful plant care assistant.", none⟩

/-- The generic fallback apology returned by `chat_with_ai` on failure. -/
def apologyFallback : String :=
  "I\x27m sorry, I\x27m having trouble responding right now. Please try again later."

/-- The chat model name (`self.models[chat][primary_model]`). -/
def chatModel : String := "gpt-3.5-turbo"

/-- `_prepare_chat_messages`: system instruction, then the supplied history
(`messages.extend` runs only when the list is truthy, i.e. non-empty), then
the new user message. -/
def _prepare_chat_messages (user_message : String) (conversation_history : List Msg) : List Msg :=
  [systemMessage]
    ++ (if conversation_history.isEmpty then [] else conversation_history)
    ++ [⟨"user", user_message, none⟩]

/-- Value of the list `_update_conversation_history` returns: the input plus the
two new untimestamped entries, trimmed to the last `max_history = 10` entries
when longer (`history[-max_history:]`). -/
def _update_conversation_history (history : List Msg) (user_message ai_response : String) : List Msg :=
  let h := history ++ [⟨"user", user_message, none⟩, ⟨"assistant", ai_response, none⟩]
  if h.length > 10 then h.drop (h.length - 10) else h

/-- Value held by the caller's aliased list after `chat_with_ai` succeeds.
`_update_conversation_history` receives `conversation_history or []`: a truthy
(non-empty) list is passed by reference and mutated by the two in-place
appends, while an empty list is replaced by a fresh list and left untouched.
The final trim rebinds a local name and never affects the caller's list. -/
def mutatedCallerHistory (history : List Msg) (user_message ai_response : String) : List Msg :=
  if history.isEmpty then history
  else history ++ [⟨"user", user_message, none⟩, ⟨"assistant", ai_response, none⟩]

/-- External completion capability: the OpenAI chat-completions call, returning
generated text or raising (modelled as `Except`). -/
structure ChatEnv where
  completion : List Msg → Except String String

/-- Shape of the dict `chat_with_ai` returns: the success dict carries the
response, the (possibly trimmed) returned history and the model name; the
failure dict carries the error string and the fallback response. Note the
success dict has no `rag_context_used` key. -/
inductive ChatResult where
  | ok (response : String) (conversation_history : List Msg) (model_used : String)
  | failure (error : String) (response : String)
deriving DecidableEq, Repr

/-- `chat_with_ai`: prepares the outbound messages, invokes the completion
provider, and on success updates the history. The second component of the
result is the value of the caller's `conversation_history` list object after
the call (the aliasing side effect of `_update_conversation_history`). -/
def chat_with_ai (env : ChatEnv) (user_message : String) (conversation_history : List Msg) :
    ChatResult × List Msg :=
  match env.completion (_prepare_chat_messages user_message conversation_history) with
  | Except.error e =>
      (ChatResult.failure ("Chat error: " ++ e) apologyFallback, conversation_history)
  | Except.ok ai_response =>
      (ChatResult.ok ai_response
        (_update_conversation_history conversation_history user_message ai_response)
        chatModel,
       mutatedCallerHistory conversation_history user_message ai_response)

/-- A conversation record of the in-memory `conversations` dict. -/
structure Conversation where
  user_id : String
  created_at : Nat
  last_activity : Nat
  messages : List Msg
deriving DecidableEq, Repr

/-- The in-memory `conversations` dict, as an association list. -/
abbrev Store := List (String × Conversation)

/-- Dict lookup `conversations[conversation_id]` / `in` test. -/
def lookupConv : Store → String → Option Conversation
  | [], _ => none
  | (k, v) :: rest, key => if k = key then some v else lookupConv rest key

/-- Dict assignment `conversations[conversation_id] = ...` (replace or add). -/
def setConv : Store → String → Conversation → Store
  | [], key, v => [(key, v)]
  | (k, w) :: rest, key, v =>
      if k = key then (key, v) :: rest else (k, w) :: setConv rest key v

/-- Python truthiness of the optional `conversation_id` field: `None` and the
empty string are falsy. -/
def pythonTruthy : Option String → Bool
  | none => false
  | some s => !(s == "")

/-- The JSON reply shapes `send_message` can produce. -/
inductive SendReply where
  | ok (conversation_id : String) (response : String) (rag_context_used : Bool) (model_used : String)
  | invalidInput (error : String)
  | notFound (error : String)
  | failure (error : String) (response : String)
deriving DecidableEq, Repr

/-- Environment of one `send_message` request: the completion capability, the
fresh `uuid.uuid4()` value, and `datetime.now()`. The `ragMatches` field
records the matches the RAGService would find for the user message above any
relevance threshold; it only serves to state the ragContextUsed claim —
`send_message` never consults the RAG service, mirroring the source. -/
structure SendEnv where
  chat : ChatEnv
  freshId : String
  now : Nat
  ragMatches : List String

/-- The part of `send_message` from the existence check on (controller lines
59-105), acting on the resolved conversation id: rejects an unknown id,
refreshes `last_activity` (before the AI call), invokes `chat_with_ai`, and on
success appends the two timestamped entries to the stored list — which is the
very list object `chat_with_ai` may already have mutated through aliasing.
`rag_context_used` in the success reply is `chat_result.get` with default
`False`; the success dict of `chat_with_ai` never carries that key, so the
literal `false` is faithful. -/
def sendToConversation (env : SendEnv) (st1 : Store) (cid : String) (user_message : String) :
    SendReply × Store :=
  match lookupConv st1 cid with
  | none => (SendReply.notFound "Conversation not found. Please start a new conversation.", st1)
  | some conv =>
      let st2 := setConv st1 cid { conv with last_activity := env.now }
      match chat_with_ai env.chat user_message conv.messages with
      | (ChatResult.ok ai_response _returned model, mutated) =>
          (SendReply.ok cid ai_response false model,
           setConv st2 cid
             { conv with
                 last_activity := env.now,
                 messages := mutated ++
                   [⟨"user", user_message, some env.now⟩,
                    ⟨"assistant", ai_response, some env.now⟩] })
      | (ChatResult.failure e resp, _) =>
          (SendReply.failure e resp, st2)

/-- `send_message` of src/routes/messages/controller.py: validates the message,
creates a fresh conversation when the supplied id is falsy (Python `if not
conversation_id`), then continues on the resolved id. -/
def send_message (env : SendEnv) (st : Store) (message : String)
    (conversation_id : Option String) (user_id : String) : SendReply × Store :=
  if pyStrip message = "" then
    (SendReply.invalidInput "No message provided. Please include a message in your request.", st)
  else if pythonTruthy conversation_id then
    sendToConversation env st (conversation_id.getD "") (pyStrip message)
  else
    sendToConversation env (setConv st env.freshId ⟨user_id, env.now, env.now, []⟩)
      env.freshId (pyStrip message)

/-!
Embedding of src/services/rag_service.py: index bootstrap
(_initialize_collection / _populate_collection), retrieval
(search_relevant_context) and diagnosis-context formatting
(get_context_for_diagnosis).
-/

/-- One record of data/RAG_v1.json. The section lists model the optional
fields; Python `item.get(...)` truthiness makes a missing field and an empty
list behave alike. -/
structure Item where
  id : String
  name : String
  description : String
  how_to_plant : List String
  common_diseases : List String
  causes : List String
  treatments : List String
  benefits : List String
deriving DecidableEq, Repr

/-- Embedding vectors, with entries modelled as integers. -/
abbrev Emb := List Int

/-- One ChromaDB record as `collection.add` stores it. -/
structure IndexedDoc where
  embedding : Emb
  meta_name : String
  meta_type : String
  meta_description : String
  document : String
deriving DecidableEq, Repr

/-- The ChromaDB client state: collection names and the stored records. -/
structure VIndex where
  collections : List String
  docs : List (String × IndexedDoc)
deriving DecidableEq, Repr

/-- A metadata dict returned by `collection.query`; `metadata.get` defaults
model possibly missing keys. -/
structure Meta where
  name : Option String
  description : Option String
deriving DecidableEq, Repr

/-- The inner (single-query) lists of a `collection.query` result. -/
structure QueryResult where
  metadatas : List Meta
  documents : List String
  distances : List Int
deriving DecidableEq, Repr

/-- One formatted entry of `search_relevant_context`. -/
structure FResult where
  name : String
  description : String
  document : String
  distance : Int
deriving DecidableEq, Repr

/-- External capabilities of the RAG service: the JSON data source, the
embedding provider and the vector index query. `collectionReady` is the
`self.collection` truthiness checked by `search_relevant_context`. -/
structure RagEnv where
  loadData : Except String (List Item)
  embed : String → Except String Emb
  query : Emb → Nat → Except String QueryResult
  collectionReady : Bool

/-- `self.collection_name`. -/
def collection_name : String := "plant_knowledge_base"

/-- The metadata description built in `_populate_collection`:
`item["description"][:200] + "..." if len(item["description"]) > 200 else item["description"]`. -/
def truncateDescription (d : String) : String :=
  if d.length > 200 then pyTake d 200 ++ "..." else d

/-- `_create_embedding_text`: name, description, and the present-only sections
in fixed order. -/
def _create_embedding_text (item : Item) : String :=
  pyJoin " " (
    ["Plant: " ++ item.name, "Description: " ++ item.description]
    ++ (if item.how_to_plant.isEmpty then []
        else ["Planting instructions: " ++ pyJoin " " item.how_to_plant])
    ++ (if item.common_diseases.isEmpty then []
        else ["Common diseases: " ++ pyJoin ", " item.common_diseases])
    ++ (if item.causes.isEmpty then []
        else ["Causes: " ++ pyJoin " " item.causes])
    ++ (if item.treatments.isEmpty then []
        else ["Treatments: " ++ pyJoin " " item.treatments])
    ++ (if item.benefits.isEmpty then []
        else ["Benefits: " ++ pyJoin " " item.benefits]))

/-- `_load_rag_data`: any read/parse error is caught and collapses to `[]`. -/
def _load_rag_data (env : RagEnv) : List Item :=
  match env.loadData with
  | Except.ok data => data
  | Except.error _ => []

/-- The per-item loop of `_populate_collection`: embed, then `collection.add`;
a per-item embedding error is logged and the item skipped. The returned
list logs the ids actually upserted (the population work performed). -/
def populateLoop (env : RagEnv) (st : VIndex) : List Item → VIndex × List String
  | [] => (st, [])
  | item :: rest =>
    match env.embed (_create_embedding_text item) with
    | Except.error _ => populateLoop env st rest
    | Except.ok emb =>
        let doc : IndexedDoc :=
          ⟨emb, item.name, "crop", truncateDescription item.description,
            _create_embedding_text item⟩
        let next := populateLoop env { st with docs := st.docs ++ [(item.id, doc)] } rest
        (next.1, item.id :: next.2)

/-- `_populate_collection`: loads the records and runs the per-item loop
(an empty load prints and returns without work). -/
def _populate_collection (env : RagEnv) (st : VIndex) : VIndex × List String :=
  let data := _load_rag_data env
  if data.isEmpty then (st, []) else populateLoop env st data

/-- `_initialize_collection`: if the named collection already exists, reuse it
(no population); otherwise create it and populate. The second component logs
the upserts performed. -/
def _initialize_collection (env : RagEnv) (st : VIndex) : VIndex × List String :=
  if st.collections.contains collection_name then (st, [])
  else
    _populate_collection env { st with collections := collection_name :: st.collections }

/-- One iteration of the formatting loop of `search_relevant_context`:
`documents[0][i]` / `distances[0][i]` when those lists are truthy (an
out-of-range access raises, modelled by `none`), else the `""` / `0`
defaults. -/
def fmtOne (docs : List String) (dists : List Int) (i : Nat) (m : Meta) : Option FResult :=
  match (if docs.isEmpty then some "" else docs[i]?),
        (if dists.isEmpty then some (0 : Int) else dists[i]?) with
  | some document, some distance =>
      some ⟨m.name.getD "Unknown", m.description.getD "", document, distance⟩
  | _, _ => none

/-- The formatting loop over `enumerate(results["metadatas"][0])`, starting at
index `i`; `none` models an exception escaping the loop. -/
def formatFrom (docs : List String) (dists : List Int) : Nat → List Meta → Option (List FResult)
  | _, [] => some []
  | i, m :: ms =>
    match fmtOne docs dists i m with
    | none => none
    | some r =>
        match formatFrom docs dists (i + 1) ms with
        | none => none
        | some rest => some (r :: rest)

/-- `search_relevant_context`: embeds the query, queries the collection and
formats the matches; any raised error (missing collection aside, which is
checked first) is caught and yields `[]`. -/
def search_relevant_context (env : RagEnv) (query : String) (n_results : Nat) : List FResult :=
  if !env.collectionReady then []
  else
    match env.embed query with
    | Except.error _ => []
    | Except.ok query_embedding =>
        match env.query query_embedding n_results with
        | Except.error _ => []
        | Except.ok results =>
            (formatFrom results.documents results.distances 0 results.metadatas).getD []

/-- The contribution of one optional argument to `query_parts` (Python
truthiness: `None` and `""` contribute nothing). -/
def truthyPart : Option String → List String
  | none => []
  | some s => if s = "" then [] else [s]

/-- The formatting loop of `get_context_for_diagnosis`: one bullet line per
result, plus a key-details line when the document is truthy, holding the first
three `". "`-split fragments re-joined. -/
def diagnosisParts : List FResult → List String
  | [] => []
  | r :: rs =>
      (("\n- " ++ r.name ++ ": " ++ r.description) ::
        (if r.document = "" then []
         else ["  Key details: " ++ pyJoin ". " ((pySplit r.document ". ").take 3)]))
      ++ diagnosisParts rs

/-- `get_context_for_diagnosis`. The second component logs the search queries
issued (each `search_relevant_context` call embeds and queries once); the
neither-argument-present path returns before any search. -/
def get_context_for_diagnosis (env : RagEnv) (plant_name symptoms : Option String) :
    String × List String :=
  let query_parts := truthyPart plant_name ++ truthyPart symptoms
  if query_parts.isEmpty then ("", [])
  else
    let query := pyJoin " " query_parts
    let results := search_relevant_context env query 2
    if results.isEmpty then ("", [query])
    else
      (pyJoin "\n" ("Relevant plant information from local database:" :: diagnosisParts results),
       [query])

/-!
Concrete fixtures used by the claim-level counterexamples and witnesses.
-/

/-- The `rag_context_used` flag of a success reply. -/
def SendReply.ragUsed : SendReply → Option Bool
  | SendReply.ok _ _ g _ => some g
  | _ => none

/-- Environment whose completion always succeeds with "reply". -/
def envC1 : SendEnv := ⟨⟨fun _ => Except.ok "reply"⟩, "c1", 0, []⟩

/-- Environment whose completion always raises. -/
def envC3 : SendEnv := ⟨⟨fun _ => Except.error "boom"⟩, "unused", 5, []⟩

/-- A store holding one conversation with `last_activity = 0`. -/
def stC3 : Store := [("c1", ⟨"anonymous", 0, 0, []⟩)]

/-- Environment for the unknown-id check. -/
def envC4 : SendEnv := ⟨⟨fun _ => Except.ok "r"⟩, "fresh", 3, []⟩

/-- Environment in which the retriever would find a match for the message. -/
def envC5 : SendEnv := ⟨⟨fun _ => Except.ok "reply"⟩, "c1", 0, ["Tomato"]⟩

/-- RAG environment whose query returns two matches at distances 1 and 2. -/
def ragEnvSorted : RagEnv :=
  ⟨Except.ok [],
   fun _ => Except.ok [1],
   fun _ _ => Except.ok ⟨[⟨some "A", some "dA"⟩, ⟨some "B", some "dB"⟩], ["docA", "docB"], [1, 2]⟩,
   true⟩

/-- RAG environment whose embedding call raises. -/
def ragEnvEmbedFail : RagEnv :=
  ⟨Except.ok [], fun _ => Except.error "embed down", fun _ _ => Except.ok ⟨[], [], []⟩, true⟩

/-- RAG environment whose index query raises. -/
def ragEnvQueryFail : RagEnv :=
  ⟨Except.ok [], fun _ => Except.ok [1], fun _ _ => Except.error "index down", true⟩

/-- RAG environment with one loadable record and a working embedder. -/
def ragEnvC7 : RagEnv :=
  ⟨Except.ok [⟨"i1", "Tomato", "Red fruit", [], [], [], [], []⟩],
   fun _ => Except.ok [1],
   fun _ _ => Except.ok ⟨[], [], []⟩,
   true⟩

/-- A vector index already holding the named collection. -/
def vindexExisting : VIndex := ⟨["plant_knowledge_base"], []⟩

/-- RAG environment whose query returns one match with a multi-sentence document. -/
def ragEnvC8 : RagEnv :=
  ⟨Except.ok [],
   fun _ => Except.ok [1],
   fun _ _ => Except.ok
     ⟨[⟨some "Tomato", some "Red fruit"⟩],
      ["Plant: Tomato. Description: Red fruit. More info. Extra tail"],
      [1]⟩,
   true⟩

/-- A description of 201 characters. -/
def dLong : String := String.mk (List.replicate 201 'a')

/-- Environment and store for the aliasing-effect claim. -/
def envC10 : SendEnv := ⟨⟨fun _ => Except.ok "reply"⟩, "z", 7, []⟩

/-- A store holding one conversation that already has one stored exchange. -/
def stC10 : Store :=
  [("c1", ⟨"anonymous", 0, 0, [⟨"user", "u1", some 0⟩, ⟨"assistant", "a1", some 0⟩]⟩)]

/-!
Helper lemmas.
-/

theorem prepare_chat_messages_eq (u : String) (h : List Msg) :
    _prepare_chat_messages u h = systemMessage :: (h ++ [⟨"user", u, none⟩]) := by
  cases h <;> simp [_prepare_chat_messages]

theorem strBeqEmptyFalse {c : String} (hc : c ≠ "") : (c == "") = false := by
  simpa using hc

theorem sendToConversation_rag_false {env : SendEnv} {st1 : Store} {cid um : String}
    {c r : String} {g : Bool} {m : String} {st2 : Store}
    (h : sendToConversation env st1 cid um = (SendReply.ok c r g m, st2)) : g = false := by
  unfold sendToConversation at h
  split at h
  · simp at h
  · split at h
    · simp only [Prod.mk.injEq, SendReply.ok.injEq] at h
      exact h.1.2.2.1.symm
    · simp at h

/-!
Claim theorems.
-/

/-- C1 (code evaluated at the failing input): with a completion provider that
always succeeds, a first `send` with no conversation id stores exactly 2 turns,
but a second successful `send` on the same conversation leaves 6 stored
messages, not the 2N = 4 the claim states — `chat_with_ai` appends an
untimestamped copy of each turn to the aliased stored list before the
controller appends the timestamped pair. The roles do still alternate. -/
theorem send_twice_stores_six_turns :
    (lookupConv (send_message envC1 [] "hello" none "anonymous").2 "c1").map
        (fun c => c.messages.length) = some 2
    ∧ (lookupConv (send_message envC1
          (send_message envC1 [] "hello" none "anonymous").2
          "again" (some "c1") "anonymous").2 "c1").map
        (fun c => (c.messages.length, c.messages.map Msg.role)) =
      some (6, ["user", "assistant", "user", "assistant", "user", "assistant"]) := by
  decide

/-- C2 counterexample: with 12 stored prior turns, the message list handed to
the completion provider has 14 entries — 12 prior turns plus the system
instruction plus the new user turn — exceeding the claimed bound of at most
10 prior turns (12 entries total). -/
theorem prepare_chat_messages_exceeds_window :
    (_prepare_chat_messages "q" (List.replicate 12 ⟨"user", "x", none⟩)).length = 14 := by
  decide

/-- C2 (amended): `_prepare_chat_messages` passes the system instruction, the
entire supplied history and the new user turn to the completion provider, with
no bound; the 10-entry trim applies only to the history list
`_update_conversation_history` returns after the call, whose length is
min (len + 2) 10. -/
theorem provider_input_unbounded_and_returned_history_trimmed
    (u a : String) (h : List Msg) :
    _prepare_chat_messages u h = systemMessage :: (h ++ [⟨"user", u, none⟩])
    ∧ (_update_conversation_history h u a).length = min (h.length + 2) 10 := by
  refine ⟨prepare_chat_messages_eq u h, ?_⟩
  simp only [_update_conversation_history]
  split
  · rename_i hgt
    rw [List.length_drop]
    simp only [List.length_append, List.length_cons, List.length_nil] at hgt ⊢
    omega
  · rename_i hle
    simp only [List.length_append, List.length_cons, List.length_nil] at hle ⊢
    omega

/-- C3 counterexample: a send whose completion call fails returns the failure
reply, yet the stored conversation is not left entirely unchanged — its
`last_activity` field moves from 0 to 5, because the controller refreshes it
before invoking the AI. -/
theorem send_failure_updates_last_activity :
    (send_message envC3 stC3 "hi" (some "c1") "anonymous").1 =
      SendReply.failure ("Chat error: " ++ "boom") apologyFallback
    ∧ (lookupConv stC3 "c1").map Conversation.last_activity = some 0
    ∧ (lookupConv (send_message envC3 stC3 "hi" (some "c1") "anonymous").2 "c1").map
        Conversation.last_activity = some 5 := by
  decide

/-- C3 (amended): when the completion provider fails, `send_message` returns a
failure reply with the prefixed error and the generic apology, and the stored
conversation keeps all its fields — messages included — except `last_activity`,
which is refreshed to the request time before the AI call. No partial turn is
persisted. -/
theorem send_failure_state_characterization (env : SendEnv) (st : Store)
    (message c user_id : String) (conv : Conversation) (e : String)
    (hmsg : pyStrip message ≠ "") (hc : c ≠ "")
    (hlook : lookupConv st c = some conv)
    (hfail : env.chat.completion (_prepare_chat_messages (pyStrip message) conv.messages) =
      Except.error e) :
    send_message env st message (some c) user_id =
      (SendReply.failure ("Chat error: " ++ e) apologyFallback,
       setConv st c { conv with last_activity := env.now }) := by
  simp [send_message, hmsg, pythonTruthy, strBeqEmptyFalse hc, sendToConversation,
    hlook, chat_with_ai, hfail]

/-- C3 witness: the characterization applies to the concrete failing fixture. -/
theorem send_failure_state_characterization_witness :
    send_message envC3 stC3 "hi" (some "c1") "anonymous" =
      (SendReply.failure ("Chat error: " ++ "boom") apologyFallback,
       setConv stC3 "c1" { user_id := "anonymous", created_at := 0, last_activity := 5,
                           messages := [] }) :=
  send_failure_state_characterization envC3 stC3 "hi" "c1" "anonymous"
    ⟨"anonymous", 0, 0, []⟩ "boom" (by decide) (by decide) (by decide) rfl

/-- C4: a send supplying a non-empty conversation id that is not a key of the
store returns the not-found reply and leaves the store exactly as it was — in
particular no conversation is created under that id. -/
theorem send_unknown_id_fails_without_creating (env : SendEnv) (st : Store)
    (message c user_id : String)
    (hmsg : pyStrip message ≠ "") (hc : c ≠ "")
    (hlook : lookupConv st c = none) :
    send_message env st message (some c) user_id =
      (SendReply.notFound "Conversation not found. Please start a new conversation.", st) := by
  simp [send_message, hmsg, pythonTruthy, strBeqEmptyFalse hc, sendToConversation, hlook]

/-- C4 witness: the unknown-id check applies to a concrete store. -/
theorem send_unknown_id_fails_without_creating_witness :
    send_message envC4 stC3 "hi" (some "ghost") "anonymous" =
      (SendReply.notFound "Conversation not found. Please start a new conversation.", stC3) :=
  send_unknown_id_fails_without_creating envC4 stC3 "hi" "ghost" "anonymous"
    (by decide) (by decide) (by decide)

/-- C5 counterexample: in an environment where the retriever would find a match
for the user message, a successful send still reports `rag_context_used =
false`, refuting the claimed biconditional — the chat path never consults the
retriever and the controller defaults the field to false. -/
theorem rag_context_used_false_despite_match :
    ¬ (((send_message envC5 [] "My tomato leaves are yellow" none "anonymous").1.ragUsed
          = some true) ↔ envC5.ragMatches ≠ []) := by
  decide

/-- C5 (amended): on every successful send, the reply's `rag_context_used`
field is false, regardless of what the retriever would have found: the success
dict of `chat_with_ai` never carries the key, so the controller's
`.get` default is always returned. -/
theorem rag_context_used_always_false {env : SendEnv} {st : Store} {message : String}
    {cid : Option String} {user_id c r : String} {g : Bool} {m : String} {st2 : Store}
    (h : send_message env st message cid user_id = (SendReply.ok c r g m, st2)) :
    g = false := by
  unfold send_message at h
  split at h
  · simp at h
  · split at h
    · exact sendToConversation_rag_false h
    · exact sendToConversation_rag_false h

/-- C5 witness: the amended claim applies to a concrete successful send. -/
theorem rag_context_used_always_false_witness :
    (send_message envC5 [] "My tomato leaves are yellow" none "anonymous").1.ragUsed
        = some false
    ∧ (false : Bool) = false := by
  refine ⟨by decide, ?_⟩
  exact @rag_context_used_always_false envC5 [] "My tomato leaves are yellow" none "anonymous"
    "c1" "reply" false chatModel
    [("c1", ⟨"anonymous", 0, 0,
      [⟨"user", "My tomato leaves are yellow", some 0⟩, ⟨"assistant", "reply", some 0⟩]⟩)]
    (by decide)

/-!
Helper lemmas for the RAG and aliasing claims.
-/

theorem setConv_setConv (st : Store) (k : String) (v w : Conversation) :
    setConv (setConv st k v) k w = setConv st k w := by
  induction st with
  | nil => simp [setConv]
  | cons p rest ih =>
      obtain ⟨q, u⟩ := p
      by_cases hq : q = k
      · simp [setConv, hq]
      · simp [setConv, hq, ih]

theorem fmtOne_dist_nil {docs : List String} {i : Nat} {m : Meta} {r : FResult}
    (hf : fmtOne docs [] i m = some r) : r.distance = 0 := by
  unfold fmtOne at hf
  cases hd : (if docs.isEmpty then some "" else docs[i]?) with
  | none => rw [hd] at hf; simp at hf
  | some doc =>
      rw [hd] at hf
      simp at hf
      rw [← hf]

theorem fmtOne_dist_get {docs : List String} {dists : List Int} {i : Nat} {m : Meta} {r : FResult}
    (hne : dists ≠ []) (hf : fmtOne docs dists i m = some r) :
    dists[i]? = some r.distance := by
  unfold fmtOne at hf
  have hie : dists.isEmpty = false := by simpa [List.isEmpty_iff] using hne
  cases hd : (if docs.isEmpty then some "" else docs[i]?) with
  | none => rw [hd] at hf; simp at hf
  | some doc =>
      cases hdist : dists[i]? with
      | none => rw [hd] at hf; simp [hie, hdist] at hf
      | some dist =>
          rw [hd] at hf
          simp [hie, hdist] at hf
          rw [← hf]

theorem formatFrom_map_dist_nil {docs : List String} :
    ∀ (i : Nat) (ms : List Meta) (l : List FResult),
      formatFrom docs [] i ms = some l →
      l.map FResult.distance = List.replicate ms.length 0 := by
  intro i ms
  induction ms generalizing i with
  | nil =>
      intro l h
      simp [formatFrom] at h
      subst h
      simp
  | cons m ms ih =>
      intro l h
      simp only [formatFrom] at h
      cases hf : fmtOne docs [] i m with
      | none => rw [hf] at h; simp at h
      | some r =>
          rw [hf] at h
          cases hrest : formatFrom docs [] (i + 1) ms with
          | none => rw [hrest] at h; simp at h
          | some rest =>
              rw [hrest] at h
              simp only [Option.some.injEq] at h
              subst h
              simp [fmtOne_dist_nil hf, ih (i + 1) rest hrest, List.replicate_succ]

theorem formatFrom_map_dist {docs : List String} {dists : List Int} (hne : dists ≠ []) :
    ∀ (i : Nat) (ms : List Meta) (l : List FResult),
      formatFrom docs dists i ms = some l →
      l.map FResult.distance = (dists.drop i).take ms.length := by
  intro i ms
  induction ms generalizing i with
  | nil =>
      intro l h
      simp [formatFrom] at h
      subst h
      simp
  | cons m ms ih =>
      intro l h
      simp only [formatFrom] at h
      cases hf : fmtOne docs dists i m with
      | none => rw [hf] at h; simp at h
      | some r =>
          rw [hf] at h
          cases hrest : formatFrom docs dists (i + 1) ms with
          | none => rw [hrest] at h; simp at h
          | some rest =>
              rw [hrest] at h
              simp only [Option.some.injEq] at h
              subst h
              have hget := fmtOne_dist_get hne hf
              have hi : i < dists.length := (List.getElem?_eq_some.mp hget).1
              have hgi : dists[i] = r.distance := by
                rw [List.getElem?_eq_getElem hi] at hget
                exact Option.some.inj hget
              rw [List.map_cons, ih (i + 1) rest hrest, List.drop_eq_getElem_cons hi]
              simp [hgi]

theorem populateLoop_collections (env : RagEnv) (data : List Item) :
    ∀ st : VIndex, (populateLoop env st data).1.collections = st.collections := by
  induction data with
  | nil => intro st; rfl
  | cons item rest ih =>
      intro st
      simp only [populateLoop]
      cases he : env.embed (_create_embedding_text item) with
      | error e => simp [ih]
      | ok emb => simp [ih]

theorem populate_collections (env : RagEnv) (st : VIndex) :
    (_populate_collection env st).1.collections = st.collections := by
  simp only [_populate_collection]
  split
  · rfl
  · exact populateLoop_collections env _ st

theorem populateLoop_docs (env : RagEnv) (data : List Item) :
    ∀ (st : VIndex) (p : String × IndexedDoc), p ∈ (populateLoop env st data).1.docs →
      p ∈ st.docs ∨ ∃ item ∈ data, p.2.meta_description = truncateDescription item.description := by
  induction data with
  | nil => intro st p hp; exact Or.inl hp
  | cons item rest ih =>
      intro st p hp
      simp only [populateLoop] at hp
      cases he : env.embed (_create_embedding_text item) with
      | error e =>
          rw [he] at hp
          rcases ih st p hp with h | ⟨it, hit, hd⟩
          · exact Or.inl h
          · exact Or.inr ⟨it, by simp [hit], hd⟩
      | ok emb =>
          rw [he] at hp
          rcases ih _ p hp with h | ⟨it, hit, hd⟩
          · rcases List.mem_append.mp h with h1 | h2
            · exact Or.inl h1
            · simp only [List.mem_singleton] at h2
              refine Or.inr ⟨item, by simp, ?_⟩
              rw [h2]
          · exact Or.inr ⟨it, by simp [hit], hd⟩

theorem truthyPart_nil {o : Option String} (h : pythonTruthy o = false) : truthyPart o = [] := by
  cases o with
  | none => rfl
  | some s =>
      simp [pythonTruthy] at h
      simp [truthyPart, h]

theorem diagnosisParts_eq_flatMap (rs : List FResult) (hdocs : ∀ r ∈ rs, r.document ≠ "") :
    diagnosisParts rs = rs.flatMap (fun r =>
      ["\n- " ++ r.name ++ ": " ++ r.description,
       "  Key details: " ++ pyJoin ". " ((pySplit r.document ". ").take 3)]) := by
  induction rs with
  | nil => rfl
  | cons r rs ih =>
      have hr : r.document ≠ "" := hdocs r (by simp)
      simp [diagnosisParts, hr, ih (fun x hx => hdocs x (by simp [hx]))]

/-- C6: `search_relevant_context` returns matches whose distances are
non-decreasing whenever the vector index returns its ranked distances in
non-decreasing order (absent distances all default to 0), and it returns the
empty list — raising nothing — whenever the embedding call or the index query
fails. -/
theorem search_relevant_context_ordered_and_failsafe (env : RagEnv) (q : String) (k : Nat) :
    (∀ emb res, env.embed q = Except.ok emb → env.query emb k = Except.ok res →
        res.distances.Pairwise (· ≤ ·) →
        ((search_relevant_context env q k).map FResult.distance).Pairwise (· ≤ ·))
    ∧ (∀ e, env.embed q = Except.error e → search_relevant_context env q k = [])
    ∧ (∀ emb e, env.embed q = Except.ok emb → env.query emb k = Except.error e →
        search_relevant_context env q k = []) := by
  refine ⟨?_, ?_, ?_⟩
  · intro emb res hemb hq hsort
    unfold search_relevant_context
    cases hready : env.collectionReady with
    | false => simp
    | true =>
        simp only [Bool.not_true, Bool.false_eq_true, if_false, hemb, hq]
        cases hfmt : formatFrom res.documents res.distances 0 res.metadatas with
        | none => simp [hfmt]
        | some l =>
            simp only [hfmt, Option.getD_some]
            by_cases hne : res.distances = []
            · rw [hne] at hfmt
              rw [formatFrom_map_dist_nil 0 res.metadatas l hfmt]
              exact List.pairwise_replicate.mpr (Or.inr le_rfl)
            · rw [formatFrom_map_dist hne 0 res.metadatas l hfmt]
              simp only [List.drop_zero]
              exact hsort.sublist (List.take_sublist _ _)
  · intro e he
    unfold search_relevant_context
    cases env.collectionReady with
    | false => simp
    | true => simp [he]
  · intro emb e hemb hq
    unfold search_relevant_context
    cases env.collectionReady with
    | false => simp
    | true => simp [hemb, hq]

/-- C6 witness: the ordering holds on a concrete two-match index answer, and
both failure modes yield the empty list. -/
theorem search_relevant_context_ordered_and_failsafe_witness :
    ((search_relevant_context ragEnvSorted "q" 2).map FResult.distance).Pairwise (· ≤ ·)
    ∧ search_relevant_context ragEnvEmbedFail "q" 2 = []
    ∧ search_relevant_context ragEnvQueryFail "q" 2 = [] := by
  refine ⟨?_, ?_, ?_⟩
  · exact (search_relevant_context_ordered_and_failsafe ragEnvSorted "q" 2).1 [1]
      ⟨[⟨some "A", some "dA"⟩, ⟨some "B", some "dB"⟩], ["docA", "docB"], [1, 2]⟩
      rfl rfl (by decide)
  · exact (search_relevant_context_ordered_and_failsafe ragEnvEmbedFail "q" 2).2.1
      "embed down" rfl
  · exact (search_relevant_context_ordered_and_failsafe ragEnvQueryFail "q" 2).2.2
      [1] "index down" rfl rfl

/-- C7: when the named collection already exists, `_initialize_collection` is a
no-op — same index state, no loading, embedding or upsert work logged — and
therefore two sequential calls perform index population at most once: the
second call never upserts. -/
theorem ensure_index_idempotent (env : RagEnv) (st : VIndex) :
    (st.collections.contains collection_name = true → _initialize_collection env st = (st, []))
    ∧ (_initialize_collection env (_initialize_collection env st).1).2 = [] := by
  constructor
  · intro hmem
    have hm : collection_name ∈ st.collections := by simpa using hmem
    simp [_initialize_collection, hm]
  · rcases hinit : _initialize_collection env st with ⟨st1, log1⟩
    have hm : collection_name ∈ st1.collections := by
      unfold _initialize_collection at hinit
      split at hinit
      · rename_i hin
        injection hinit with h1 h2
        rw [← h1]
        simpa using hin
      · have hc := populate_collections env ⟨collection_name :: st.collections, st.docs⟩
        rw [hinit] at hc
        rw [hc]
        simp
    simp [_initialize_collection, hm]

/-- C7 witness: the no-op case on an index that already holds the collection,
and the at-most-once property starting from an empty index (whose first call
does populate). -/
theorem ensure_index_idempotent_witness :
    _initialize_collection ragEnvC7 vindexExisting = (vindexExisting, [])
    ∧ (_initialize_collection ragEnvC7 (_initialize_collection ragEnvC7 ⟨[], []⟩).1).2 = [] := by
  constructor
  · exact (ensure_index_idempotent ragEnvC7 vindexExisting).1 (by decide)
  · exact (ensure_index_idempotent ragEnvC7 ⟨[], []⟩).2

/-- C8: with neither plant name nor symptoms truthy, `get_context_for_diagnosis`
returns empty text having issued no search (hence no embedding or index query);
otherwise it issues exactly one search whose query is the space-joined present
parts with top-2 results requested, and — when matches with non-empty documents
come back — renders for each match its bullet line plus a key-details line made
of the first three ". "-delimited fragments of the match's document. -/
theorem get_context_for_diagnosis_spec (env : RagEnv) (p s : Option String) :
    (pythonTruthy p = false → pythonTruthy s = false →
      get_context_for_diagnosis env p s = ("", []))
    ∧ (truthyPart p ++ truthyPart s ≠ [] →
        (get_context_for_diagnosis env p s).2 = [pyJoin " " (truthyPart p ++ truthyPart s)]
        ∧ (search_relevant_context env (pyJoin " " (truthyPart p ++ truthyPart s)) 2 ≠ [] →
            (∀ r ∈ search_relevant_context env (pyJoin " " (truthyPart p ++ truthyPart s)) 2,
              r.document ≠ "") →
            (get_context_for_diagnosis env p s).1 =
              pyJoin "\n" ("Relevant plant information from local database:" ::
                (search_relevant_context env
                    (pyJoin " " (truthyPart p ++ truthyPart s)) 2).flatMap
                  (fun r =>
                    ["\n- " ++ r.name ++ ": " ++ r.description,
                     "  Key details: " ++
                       pyJoin ". " ((pySplit r.document ". ").take 3)])))) := by
  constructor
  · intro hp hs
    simp [get_context_for_diagnosis, truthyPart_nil hp, truthyPart_nil hs]
  · intro hne
    have hie : (truthyPart p ++ truthyPart s).isEmpty = false := by
      simpa [List.isEmpty_iff] using hne
    constructor
    · simp only [get_context_for_diagnosis, hie, Bool.false_eq_true, if_false]
      split <;> rfl
    · intro hres hdocs
      have hresie :
          (search_relevant_context env (pyJoin " " (truthyPart p ++ truthyPart s)) 2).isEmpty
            = false := by simpa [List.isEmpty_iff] using hres
      simp only [get_context_for_diagnosis, hie, Bool.false_eq_true, if_false, hresie]
      rw [diagnosisParts_eq_flatMap _ hdocs]

/-- C8 witness: the characterization applied to a concrete environment
returning one match with a four-fragment document. -/
theorem get_context_for_diagnosis_spec_witness :
    get_context_for_diagnosis ragEnvC8 none none = ("", [])
    ∧ (get_context_for_diagnosis ragEnvC8 (some "Tomato") none).2 =
        [pyJoin " " (truthyPart (some "Tomato") ++ truthyPart none)]
    ∧ (get_context_for_diagnosis ragEnvC8 (some "Tomato") none).1 =
        pyJoin "\n" ("Relevant plant information from local database:" ::
          (search_relevant_context ragEnvC8
              (pyJoin " " (truthyPart (some "Tomato") ++ truthyPart none)) 2).flatMap
            (fun r =>
              ["\n- " ++ r.name ++ ": " ++ r.description,
               "  Key details: " ++ pyJoin ". " ((pySplit r.document ". ").take 3)])) := by
  have h0 := (get_context_for_diagnosis_spec ragEnvC8 none none).1 rfl rfl
  have h := (get_context_for_diagnosis_spec ragEnvC8 (some "Tomato") none).2 (by decide)
  exact ⟨h0, h.1, h.2 (by decide) (by decide)⟩

set_option maxRecDepth 4000 in
/-- C9 counterexample: for a 201-character description the stored metadata
description is the first 200 characters plus "..." — 203 characters — so it is
not "at most 200 characters long" as claimed. -/
theorem truncated_description_exceeds_200 :
    ¬ ((truncateDescription dLong).length ≤ 200) := by decide

/-- C9 (amended): the metadata description equals the full record description
when that is at most 200 characters, and otherwise the first 200 characters
followed by "..." — 203 characters in total; every record upserted by
`_populate_collection` carries exactly this value for its source record. -/
theorem metadata_description_truncation (d : String) (env : RagEnv) (st : VIndex) :
    (d.length ≤ 200 → truncateDescription d = d)
    ∧ (200 < d.length →
        truncateDescription d = pyTake d 200 ++ "..."
        ∧ (truncateDescription d).length = 203)
    ∧ (∀ idd doc, (idd, doc) ∈ (_populate_collection env st).1.docs →
        (idd, doc) ∈ st.docs ∨
        ∃ item ∈ _load_rag_data env,
          doc.meta_description = truncateDescription item.description) := by
  refine ⟨?_, ?_, ?_⟩
  · intro hle
    simp [truncateDescription]
    omega
  · intro hgt
    have hif : truncateDescription d = pyTake d 200 ++ "..." := by
      simp [truncateDescription, hgt]
    refine ⟨hif, ?_⟩
    rw [hif]
    have happ : pyTake d 200 ++ "..." = String.mk (d.data.take 200 ++ ['.', '.', '.']) := rfl
    rw [happ]
    have hlen : (String.mk (d.data.take 200 ++ ['.', '.', '.'])).length
        = (d.data.take 200 ++ ['.', '.', '.']).length := rfl
    rw [hlen, List.length_append, List.length_take]
    have hd : 200 < d.data.length := hgt
    simp
    omega
  · intro idd doc hp
    simp only [_populate_collection] at hp
    split at hp
    · exact Or.inl hp
    · exact populateLoop_docs env (_load_rag_data env) st (idd, doc) hp

set_option maxRecDepth 4000 in
/-- C9 witness: both truncation branches, evaluated at a short and a
201-character description, and the metadata of the one record a concrete
population run upserts. -/
theorem metadata_description_truncation_witness :
    truncateDescription "short" = "short"
    ∧ truncateDescription dLong = pyTake dLong 200 ++ "..."
    ∧ (truncateDescription dLong).length = 203
    ∧ (("i1", (⟨[1], "Tomato", "crop", "Red fruit",
          "Plant: Tomato Description: Red fruit"⟩ : IndexedDoc)) ∈
            (⟨[], []⟩ : VIndex).docs
        ∨ ∃ item ∈ _load_rag_data ragEnvC7,
            (⟨[1], "Tomato", "crop", "Red fruit",
              "Plant: Tomato Description: Red fruit"⟩ : IndexedDoc).meta_description =
              truncateDescription item.description) := by
  obtain ⟨h1, _, _⟩ := metadata_description_truncation "short" ragEnvC7 ⟨[], []⟩
  obtain ⟨_, g2, g3⟩ := metadata_description_truncation dLong ragEnvC7 ⟨[], []⟩
  refine ⟨h1 (by decide), (g2 (by decide)).1, (g2 (by decide)).2, ?_⟩
  exact g3 "i1" ⟨[1], "Tomato", "crop", "Red fruit", "Plant: Tomato Description: Red fruit"⟩
    (by decide)

/-- C10 counterexample: on a successful call with an empty passed history list,
`chat_with_ai` leaves that very list empty — the appends land on the fresh list
Python's `or` substitutes — so it does not append to the caller's list on
every successful call, and the first stored exchange has 2 entries, not 4. -/
theorem chat_leaves_empty_history_unmutated :
    (chat_with_ai ⟨fun _ => Except.ok "reply"⟩ "hi" []).1 =
      ChatResult.ok "reply" [⟨"user", "hi", none⟩, ⟨"assistant", "reply", none⟩] chatModel
    ∧ (chat_with_ai ⟨fun _ => Except.ok "reply"⟩ "hi" []).2 = [] := by decide

/-- C10 (amended): on a successful call with a non-empty passed history list,
`chat_with_ai` does append the untimestamped user and assistant entries to that
very list before the trimmed return value is computed, so a send on a
conversation that already has stored messages persists four entries — the two
untimestamped copies from `chat_with_ai` followed by the controller's two
timestamped ones. With an empty stored list only the two timestamped entries
are persisted. -/
theorem chat_mutates_nonempty_history (env : SendEnv) (st : Store)
    (message c user_id : String) (conv : Conversation) (resp : String)
    (hne : conv.messages ≠ [])
    (hmsg : pyStrip message ≠ "") (hc : c ≠ "")
    (hlook : lookupConv st c = some conv)
    (hok : env.chat.completion (_prepare_chat_messages (pyStrip message) conv.messages) =
      Except.ok resp) :
    (chat_with_ai env.chat (pyStrip message) conv.messages).2 =
      conv.messages ++ [⟨"user", pyStrip message, none⟩, ⟨"assistant", resp, none⟩]
    ∧ send_message env st message (some c) user_id =
        (SendReply.ok c resp false chatModel,
         setConv st c
           { conv with
               last_activity := env.now,
               messages := conv.messages ++
                 [⟨"user", pyStrip message, none⟩, ⟨"assistant", resp, none⟩,
                  ⟨"user", pyStrip message, some env.now⟩,
                  ⟨"assistant", resp, some env.now⟩] }) := by
  have hie : conv.messages.isEmpty = false := by simpa [List.isEmpty_iff] using hne
  constructor
  · simp [chat_with_ai, hok, mutatedCallerHistory, hie]
  · simp [send_message, hmsg, pythonTruthy, strBeqEmptyFalse hc, sendToConversation, hlook,
      chat_with_ai, hok, mutatedCallerHistory, hie, setConv_setConv]

/-- C10 witness: the aliasing effect on a concrete conversation that already
holds one stored exchange. -/
theorem chat_mutates_nonempty_history_witness :
    (chat_with_ai envC10.chat (pyStrip "hi")
        [⟨"user", "u1", some 0⟩, ⟨"assistant", "a1", some 0⟩]).2 =
      [⟨"user", "u1", some 0⟩, ⟨"assistant", "a1", some 0⟩] ++
        [⟨"user", pyStrip "hi", none⟩, ⟨"assistant", "reply", none⟩]
    ∧ send_message envC10 stC10 "hi" (some "c1") "anonymous" =
        (SendReply.ok "c1" "reply" false chatModel,
         setConv stC10 "c1"
           { user_id := "anonymous", created_at := 0, last_activity := 7,
             messages := [⟨"user", "u1", some 0⟩, ⟨"assistant", "a1", some 0⟩] ++
               [⟨"user", pyStrip "hi", none⟩, ⟨"assistant", "reply", none⟩,
                ⟨"user", pyStrip "hi", some 7⟩, ⟨"assistant", "reply", some 7⟩] }) :=
  chat_mutates_nonempty_history envC10 stC10 "hi" "c1" "anonymous"
    ⟨"anonymous", 0, 0, [⟨"user", "u1", some 0⟩, ⟨"assistant", "a1", some 0⟩]⟩ "reply"
    (by decide) (by decide) (by decide) (by decide) rfl
